import Mathlib

/-!
Verification development for the Copilot Coding Agent Orchestrator.

This file gives a shallow embedding, in Lean, of the control-relevant parts of
the orchestrator's Python sources:

* `src/github_client.py` — the PR signal classifier `GitHubClient._to_pr_info`,
  embedded as `toPrInfo` below together with its helper scans;
* `src/automation_engine.py` — the queue-editing operations and the status
  refresh `AutomationEngine._update_item_status`, embedded as `addItem`,
  `removeItem`, `moveItemUp`, `moveItemDown` and `updateItemStatus`;
* `src/daemon.py` — `CooldownManager.can_assign`, the review tracker and the
  daemon cycle `AutomationDaemon._process_item_with_cooldown` /
  `_process_cycle`, embedded as `cooldownCanAssign`, `processItemWithCooldown`
  and `runCycle`.

Modelling conventions used throughout:

* Timestamps are modelled as `Nat` (seconds).  The source compares ISO-8601
  strings from the timeline API lexicographically and `datetime` values
  chronologically; both orders agree with the `Nat` order.
* A fallible fetch (a Python call that may raise) is modelled as an
  `Option` value: `none` means the call raised.  A fetch whose failure is
  swallowed by a `try`/`except` in the source is consumed by pattern
  matching; a fetch outside any `try` block is consumed with monadic bind,
  so its failure propagates out of the embedded function.
* Free-text matching (`"apply" in body.lower()` and similar) is embedded with
  a real substring test `strContains` over Lean strings.
* Write-only advisory fields (`last_action`, `last_action_time`,
  `issue_title`, `url`) are omitted: the source never reads them for a
  control decision.
-/

namespace Orchestrator

/-! ## Classifier data model (`src/github_client.py`) -/

/-- The `PRState` enum of `src/github_client.py`. -/
inductive PRState where
  | OPEN
  | CLOSED
  | MERGED
  | DRAFT
  | REVIEW_REQUESTED
  | CHANGES_REQUESTED
  | APPROVED
deriving DecidableEq, Repr

/-- The `IssueState` enum of `src/github_client.py`. -/
inductive IssueState where
  | OPEN
  | CLOSED
  | IN_PROGRESS
deriving DecidableEq, Repr

/-- One event from the GitHub timeline API as read by `_to_pr_info`
(DETECTION 1).  `createdAt = none` models a missing or falsy `created_at`
field, which the source skips. -/
structure TimelineEvent where
  kind : String
  createdAt : Option Nat
deriving DecidableEq, Repr

/-- One issue comment as read by `_to_pr_info` (DETECTION 2). -/
structure IssueComment where
  body : String
  createdAt : Nat
deriving DecidableEq, Repr

/-- One formal review, with its `state` string (for example `"APPROVED"`)
and optional body.  `body = none` models a null body; an empty string is
handled by the substring test itself. -/
structure Review where
  state : String
  body : Option String
deriving DecidableEq, Repr

/-- One review-thread comment.  `commitId = none` models a falsy
(`None`/missing/empty) `commit_id`, which the source treats as targeting the
current head commit. -/
structure ReviewComment where
  commitId : Option String
deriving DecidableEq, Repr

/-- One commit of the PR, carrying the result of its `get_check_runs()` call:
`none` means the call raised; each run is its `conclusion`
(`none` for a null conclusion). -/
structure CommitInfo where
  checkRunsFetch : Option (List (Option String))
deriving DecidableEq, Repr

/-- The raw facts `_to_pr_info` reads about one pull request.  Fetch fields
hold `none` when the corresponding API call raises.  `now` is the
classification time (`datetime.now(timezone.utc)`).  `bodyLinkedIssue` is the
result of the `TC-[A-Z]-\d{2}` regex search over the PR body. -/
structure RawPR where
  number : Nat
  title : String
  bodyLinkedIssue : Option String
  merged : Bool
  closed : Bool
  draft : Bool
  headSha : String
  authorLogin : String
  mergeable : Option Bool
  now : Nat
  timelineFetch : Option (List TimelineEvent)
  reviewsFetch : Option (List Review)
  issueCommentsFetch : Option (List IssueComment)
  reviewCommentsFetch : Option (List ReviewComment)
  reviewRequestsFetch : Option (List String)
  commitsFetch : Option (List CommitInfo)
deriving DecidableEq, Repr

/-- The `PRInfo` dataclass of `src/github_client.py` (the `url` passthrough
field is omitted). -/
structure PRInfo where
  number : Nat
  title : String
  state : PRState
  author : String
  reviewers : List String
  reviewState : Option String
  linkedIssue : Option String
  mergeable : Bool
  checksPassed : Bool
  isDraft : Bool
  copilotHasReviewed : Bool
  copilotIsWorking : Bool
deriving DecidableEq, Repr

/-! ## Classifier helper scans -/

/-- Whether the first list is an initial segment of the second. -/
def startsWithChars : List Char → List Char → Bool
  | [], _ => true
  | _ :: _, [] => false
  | a :: as, b :: bs => a == b && startsWithChars as bs

/-- Whether `sub` occurs contiguously in the second list. -/
def hasSubChars (sub : List Char) : List Char → Bool
  | [] => sub.isEmpty
  | c :: rest => startsWithChars sub (c :: rest) || hasSubChars sub rest

/-- Python's case-sensitive substring test `sub in s`. -/
def strContains (s sub : String) : Bool :=
  hasSubChars sub.toList s.toList

/-- Python's `sub in s.lower()` for a lowercase literal `sub`. -/
def strContainsLower (s sub : String) : Bool :=
  hasSubChars sub.toList (s.toList.map Char.toLower)

/-- DETECTION 2's test for an apply request:
`"@copilot" in body_lower and "apply" in body_lower`. -/
def isApplyRequest (c : IssueComment) : Bool :=
  strContainsLower c.body "@copilot" && strContainsLower c.body "apply"

/-- DETECTION 2's test for the definitive completion signal:
`"copilot finished work on behalf of" in body_lower`. -/
def isFinishedWork (c : IssueComment) : Bool :=
  strContainsLower c.body "copilot finished work on behalf of"

/-- The timeline loop of DETECTION 1: the `created_at` of the last event of
the given kind that carries a truthy timestamp (the source overwrites
`latest_*` on every match, so the last match in iteration order wins). -/
def lastEventTime (events : List TimelineEvent) (kind : String) : Option Nat :=
  events.foldl
    (fun acc e =>
      if e.kind == kind then
        match e.createdAt with
        | some t => some t
        | none => acc
      else acc)
    none

/-- The three flags DETECTION 1 can set. -/
structure TimelineResult where
  working : Bool
  reviewed : Bool
  justFinished : Bool
deriving DecidableEq, Repr

/-- DETECTION 1 of `_to_pr_info` (github_client.py lines 376-430).  A failed
fetch (`none`) and a non-200 response both leave all three flags at their
defaults.

The grace-period branch of the source (lines 416-425) assigns
`copilot_review_finished_at = latest_work_finished`, where
`latest_work_finished` is the raw ISO-8601 **string** taken from the timeline
JSON, and then computes `(now - copilot_review_finished_at).total_seconds()`
with `now` a `datetime`.  Subtracting a string from a `datetime` raises
`TypeError`; the blanket `except` at line 429 catches it.  The assignments
already made (`copilot_is_working = False`, `copilot_has_reviewed = True`)
are retained, but `copilot_work_just_finished` is never set, on any input and
independently of `now`.  The embedding therefore returns
`justFinished = false` on every path; `now` is accepted (and ignored) to
record where the source would have used it. -/
def timelineDetection (_now : Nat) (timelineFetch : Option (List TimelineEvent)) :
    TimelineResult :=
  match timelineFetch with
  | none => ⟨false, false, false⟩
  | some events =>
    match lastEventTime events "copilot_work_started",
          lastEventTime events "copilot_work_finished" with
    | none, _ => ⟨false, false, false⟩
    | some _, none => ⟨true, false, false⟩
    | some s, some f =>
      if s > f then ⟨true, false, false⟩
      else
        match lastEventTime events "review_requested" with
        | some r =>
          if f > r then
            -- the `seconds_since_finish` computation raises here (see above)
            ⟨false, true, false⟩
          else ⟨false, false, false⟩
        | none => ⟨false, false, false⟩

/-- Accumulator of DETECTION 2's comment loop. -/
structure ApplyScan where
  hasApply : Bool
  lastApplyTime : Option Nat
  lastFinishedTime : Option Nat
deriving DecidableEq, Repr

/-- DETECTION 2's comment loop (github_client.py lines 454-470): each comment
may both record an apply request and record the completion signal; later
comments overwrite the recorded timestamps. -/
def applyScan (cs : List IssueComment) : ApplyScan :=
  cs.foldl
    (fun acc c =>
      let acc :=
        if isApplyRequest c then
          { acc with hasApply := true, lastApplyTime := some c.createdAt }
        else acc
      if isFinishedWork c then { acc with lastFinishedTime := some c.createdAt }
      else acc)
    ⟨false, none, none⟩

/-- DETECTION 2's decision logic (github_client.py lines 472-489): when an
apply request exists, `copilot_is_working` is overwritten — `false` when the
completion signal is strictly later than the last apply request, `true`
otherwise.  Without an apply request, or when the comment fetch raises, the
value from DETECTION 1 stands. -/
def applyDecision (tlWorking : Bool) (fetch : Option (List IssueComment)) : Bool :=
  match fetch with
  | none => tlWorking
  | some cs =>
    let sc := applyScan cs
    match sc.hasApply, sc.lastApplyTime with
    | true, some a =>
      match sc.lastFinishedTime with
      | some f => if f > a then false else true
      | none => true
    | _, _ => tlWorking

/-- The review-body signature test (github_client.py lines 500-504):
`review.body and ("Copilot finished reviewing" in review.body or
"Copilot reviewed" in review.body)`. -/
def reviewBodyIsCopilotSig (r : Review) : Bool :=
  match r.body with
  | some b => strContains b "Copilot finished reviewing" || strContains b "Copilot reviewed"
  | none => false

/-- Whether one review comment counts as pending (github_client.py lines
512-521): skipped only when its commit id is truthy and differs from the
head SHA. -/
def pendingOnHead (sha : String) (rc : ReviewComment) : Bool :=
  match rc.commitId with
  | some c => c == sha
  | none => true

/-- The pending-suggestion check (github_client.py lines 509-523): evaluated
only once the agent's review is deemed complete; a raised review-comment
fetch leaves the flag `false`. -/
def hasPendingSuggestions (reviewed : Bool) (sha : String)
    (fetch : Option (List ReviewComment)) : Bool :=
  if reviewed then
    match fetch with
    | none => false
    | some rcs => rcs.any (pendingOnHead sha)
  else false

/-- One check run passes when its conclusion is `success`, `skipped` or null
(github_client.py line 578). -/
def checkRunOk (c : Option String) : Bool :=
  c == some "success" || c == some "skipped" || c == none

/-- The CI status check (github_client.py lines 570-582), protected by a bare
`except`: a raised commits or check-runs fetch leaves `checks_passed` true;
otherwise the last commit's runs must all pass. -/
def checksPassedOf (commitsFetch : Option (List CommitInfo)) : Bool :=
  match commitsFetch with
  | none => true
  | some cs =>
    match cs.getLast? with
    | none => true
    | some last =>
      match last.checkRunsFetch with
      | none => true
      | some runs => runs.all checkRunOk

/-- The priority resolution of `_to_pr_info` (github_client.py lines
528-560): merged, closed, formal verdicts, the two agent-reviewed branches,
requested reviewers, draft, open — first match wins. -/
def resolveState (pr : RawPR) (reviewState : Option String)
    (copilotHasReviewed pending justFinished : Bool)
    (requestedReviewers : List String) : PRState :=
  if pr.merged then .MERGED
  else if pr.closed then .CLOSED
  else if reviewState == some "APPROVED" then .APPROVED
  else if reviewState == some "CHANGES_REQUESTED" then .CHANGES_REQUESTED
  else if copilotHasReviewed && pending then .CHANGES_REQUESTED
  else if copilotHasReviewed && !pending then
    if justFinished then .REVIEW_REQUESTED else .APPROVED
  else if !requestedReviewers.isEmpty && !copilotHasReviewed then .REVIEW_REQUESTED
  else if pr.draft then .DRAFT
  else .OPEN

/-- `GitHubClient._to_pr_info` (github_client.py lines 363-598), as a pure
function of the raw facts.  The reviews fetch (line 367,
`list(pr.get_reviews())`) and the requested-reviewers fetch (line 526,
`pr.get_review_requests()`) sit outside every `try` block, so their failure
propagates: the embedding binds them monadically and returns `none` when
either raised.  Every other signal source is consumed inside a `try` and
degrades to its default. -/
def toPrInfo (pr : RawPR) : Option PRInfo := do
  let reviews ← pr.reviewsFetch
  let tl := timelineDetection pr.now pr.timelineFetch
  let copilotIsWorking := applyDecision tl.working pr.issueCommentsFetch
  let latestCommitSha := pr.headSha
  let reviewState := reviews.getLast?.map Review.state
  let copilotHasReviewed := tl.reviewed || reviews.any reviewBodyIsCopilotSig
  let pending := hasPendingSuggestions copilotHasReviewed latestCommitSha pr.reviewCommentsFetch
  let requestedReviewers ← pr.reviewRequestsFetch
  some {
    number := pr.number
    title := pr.title
    state := resolveState pr reviewState copilotHasReviewed pending tl.justFinished requestedReviewers
    author := pr.authorLogin
    reviewers := requestedReviewers
    reviewState := reviewState
    linkedIssue := pr.bodyLinkedIssue
    mergeable := pr.mergeable.getD false
    checksPassed := checksPassedOf pr.commitsFetch
    isDraft := pr.draft
    copilotHasReviewed := copilotHasReviewed
    copilotIsWorking := copilotIsWorking }

/-! ## Workflow state machine data model (`src/automation_engine.py`) -/

/-- The `WorkflowState` enum of `src/automation_engine.py`. -/
inductive WorkflowState where
  | QUEUED
  | ASSIGNED
  | PR_OPEN
  | REVIEW_REQUESTED
  | REVIEWING
  | CHANGES_REQUESTED
  | APPLYING_CHANGES
  | APPROVED
  | MERGED
  | COMPLETED
deriving DecidableEq, Repr

/-- The `QueueItem` dataclass, restricted to its control-relevant fields
(`issue_title`, `last_action`, `last_action_time` are write-only advisory
fields). -/
structure QueueItem where
  issueId : String
  state : WorkflowState
  issueNumber : Option Nat
  prNumber : Option Nat
deriving DecidableEq, Repr

/-- The part of `IssueInfo` read by `_update_item_status`: the issue number
and its classified state. -/
structure IssueView where
  number : Nat
  state : IssueState
deriving DecidableEq, Repr

/-! ## Queue-editing operations (`AutomationEngine`) -/

/-- Issue ids of a queue, in order. -/
def queueIds (q : List QueueItem) : List String :=
  q.map (·.issueId)

/-- `AutomationEngine.add_item` (automation_engine.py lines 150-164).
`numbers` is the `_issue_numbers` config mapping; `position` defaults to
`-1` in the source.  Returns the `bool` result and the updated queue. -/
def addItem (numbers : String → Option Nat) (q : List QueueItem)
    (issueId : String) (position : Int) : Bool × List QueueItem :=
  if q.any (fun it => it.issueId == issueId) then (false, q)
  else
    let newItem : QueueItem :=
      { issueId := issueId, state := .QUEUED, issueNumber := numbers issueId, prNumber := none }
    if position < 0 || position ≥ q.length then (true, q ++ [newItem])
    else (true, q.insertIdx position.toNat newItem)

/-- The scan of `AutomationEngine.remove_item`: pop the first item with the
given id, or report no match. -/
def removeItemAux (issueId : String) : List QueueItem → Option (List QueueItem)
  | [] => none
  | x :: rest =>
    if x.issueId == issueId then some rest
    else (removeItemAux issueId rest).map (x :: ·)

/-- `AutomationEngine.remove_item` (automation_engine.py lines 141-148). -/
def removeItem (q : List QueueItem) (issueId : String) : Bool × List QueueItem :=
  match removeItemAux issueId q with
  | some q2 => (true, q2)
  | none => (false, q)

/-- The scan of `AutomationEngine.move_item_up`: find the first index `i > 0`
whose item matches and swap it with its predecessor (an id matching only at
index 0 is skipped by the `i > 0` guard). -/
def moveUpAux (issueId : String) : List QueueItem → Option (List QueueItem)
  | [] => none
  | [_] => none
  | x :: y :: rest =>
    if y.issueId == issueId then some (y :: x :: rest)
    else (moveUpAux issueId (y :: rest)).map (x :: ·)

/-- `AutomationEngine.move_item_up` (automation_engine.py lines 123-130). -/
def moveItemUp (q : List QueueItem) (issueId : String) : Bool × List QueueItem :=
  match moveUpAux issueId q with
  | some q2 => (true, q2)
  | none => (false, q)

/-- The scan of `AutomationEngine.move_item_down`: find the first index
`i < len - 1` whose item matches and swap it with its successor (a match at
the last index fails the guard and the scan moves on). -/
def moveDownAux (issueId : String) : List QueueItem → Option (List QueueItem)
  | [] => none
  | [_] => none
  | x :: y :: rest =>
    if x.issueId == issueId then some (y :: x :: rest)
    else (moveDownAux issueId (y :: rest)).map (x :: ·)

/-- `AutomationEngine.move_item_down` (automation_engine.py lines 132-139). -/
def moveItemDown (q : List QueueItem) (issueId : String) : Bool × List QueueItem :=
  match moveDownAux issueId q with
  | some q2 => (true, q2)
  | none => (false, q)

/-- One queue-editing operation. -/
inductive QueueOp where
  | add (issueId : String) (position : Int)
  | remove (issueId : String)
  | moveUp (issueId : String)
  | moveDown (issueId : String)
deriving DecidableEq, Repr

/-- Apply one queue-editing operation (the queue it leaves behind). -/
def applyOp (numbers : String → Option Nat) (q : List QueueItem) : QueueOp → List QueueItem
  | .add issueId pos => (addItem numbers q issueId pos).2
  | .remove issueId => (removeItem q issueId).2
  | .moveUp issueId => (moveItemUp q issueId).2
  | .moveDown issueId => (moveItemDown q issueId).2

/-- Apply a sequence of queue-editing operations. -/
def applyOps (numbers : String → Option Nat) (q : List QueueItem)
    (ops : List QueueOp) : List QueueItem :=
  ops.foldl (applyOp numbers) q

/-! ## Status refresh (`AutomationEngine._update_item_status`) -/

/-- The collaborator calls `_update_item_status` makes, as pure lookups
(`none` models both "not found" and a caught exception, exactly as the
source's `get_*` helpers return `None` in both cases). -/
structure EngineEnv where
  issueNumbers : String → Option Nat
  getIssueByNumber : Nat → Option IssueView
  getIssueByPattern : String → Option IssueView
  getPrByNumber : Nat → Option PRInfo
  getPrByIssue : String → Option PRInfo

/-- The issue-resolution preamble of `_update_item_status`
(automation_engine.py lines 188-200): direct lookup when the number is
known, else the config mapping, else the slow title-pattern search (which
also backfills `issue_number`). -/
def resolveIssue (env : EngineEnv) (item : QueueItem) : QueueItem × Option IssueView :=
  match item.issueNumber with
  | some n => (item, env.getIssueByNumber n)
  | none =>
    match env.issueNumbers item.issueId with
    | some n => ({ item with issueNumber := some n }, env.getIssueByNumber n)
    | none =>
      match env.getIssueByPattern item.issueId with
      | some iss => ({ item with issueNumber := some iss.number }, some iss)
      | none => (item, none)

/-- The PR lookup of `_update_item_status` (automation_engine.py lines
228-235): direct by number when known, else by issue reference but only for
items already in progress. -/
def lookupPr (env : EngineEnv) (item : QueueItem) (iss : IssueView) : Option PRInfo :=
  match item.prNumber with
  | some pn => env.getPrByNumber pn
  | none =>
    if iss.state == .IN_PROGRESS || item.state != .QUEUED then env.getPrByIssue item.issueId
    else none

/-- The `if pr:` block of `_update_item_status` (automation_engine.py lines
237-273): update the item's state from the classified PR state, with the
explicit don't-regress guards of the source. -/
def applyPrSignal (item : QueueItem) (pr : PRInfo) : QueueItem :=
  let item := { item with prNumber := some pr.number }
  if pr.state == .MERGED then { item with state := .MERGED }
  else if pr.state == .CLOSED then { item with state := .QUEUED, prNumber := none }
  else if pr.state == .APPROVED then { item with state := .APPROVED }
  else if pr.state == .CHANGES_REQUESTED then
    if item.state != .APPLYING_CHANGES then { item with state := .CHANGES_REQUESTED }
    else item
  else if pr.state == .REVIEW_REQUESTED then
    if item.state != .REVIEWING && item.state != .APPLYING_CHANGES then
      { item with state := .REVIEW_REQUESTED }
    else item
  else if pr.state == .DRAFT then { item with state := .PR_OPEN }
  else if !pr.reviewers.isEmpty then
    if item.state != .REVIEWING && item.state != .APPLYING_CHANGES then
      { item with state := .REVIEW_REQUESTED }
    else item
  else
    if item.state != .REVIEW_REQUESTED && item.state != .REVIEWING &&
        item.state != .CHANGES_REQUESTED && item.state != .APPLYING_CHANGES then
      { item with state := .PR_OPEN }
    else item

/-- `AutomationEngine._update_item_status` (automation_engine.py lines
183-277).  The title-persistence block (lines 206-214) only writes advisory
data and is omitted. -/
def updateItemStatus (env : EngineEnv) (item : QueueItem) : QueueItem :=
  match resolveIssue env item with
  | (item, none) => item
  | (item, some iss) =>
    if iss.state == .CLOSED then { item with state := .COMPLETED }
    else if item.state == .QUEUED && iss.state != .IN_PROGRESS then item
    else
      match lookupPr env item iss with
      | some pr => applyPrSignal item pr
      | none =>
        if iss.state == .IN_PROGRESS then { item with state := .ASSIGNED }
        else if iss.state == .CLOSED then { item with state := .COMPLETED }
        else item

/-! ## Cooldown manager (`src/daemon.py`) -/

/-- The durable cooldown record (`last_assignment.json`) as `can_assign`
sees it: absent, present but unreadable or unparsable, or carrying the
completion timestamp. -/
inductive CooldownFile where
  | noFile
  | malformed
  | record (timestamp : Nat)
deriving DecidableEq, Repr

/-- `CooldownManager.can_assign` (daemon.py lines 83-106): `(True, None)`
when no file exists; the `try` around reading and parsing turns any
malformed file into `(True, None)` as well; otherwise the cooldown-end
comparison.  `remaining` is `(cooldown_end - now)` in minutes, truncated. -/
def cooldownCanAssign (file : CooldownFile) (cooldownMinutes : Nat) (now : Nat) :
    Bool × Option Nat :=
  match file with
  | .noFile => (true, none)
  | .malformed => (true, none)
  | .record t =>
    let cooldownEnd := t + cooldownMinutes * 60
    if now ≥ cooldownEnd then (true, none)
    else (false, some ((cooldownEnd - now) / 60))

/-- `CooldownManager.record_completion` (daemon.py lines 108-115): overwrite
the record with the current time. -/
def recordCompletion (now : Nat) : CooldownFile :=
  .record now

/-! ## Daemon cycle (`AutomationDaemon`, `src/daemon.py`)

The review tracker (`ReviewTracker`) is the JSON dict
`review_completed_prs` keyed by PR number; it is modelled as the list of
marked PR numbers, with `mark_review_done` inserting the key and `clear_pr`
deleting it.  `record_completion` writes the durable cooldown record; within
a cycle the daemon only consults the threaded `can_assign` flag, which it
clears when an action string contains `"Assigned"` or `"cooldown started"`
(daemon.py lines 415-422), so the cycle model tracks that flag alone. -/

/-- The `automation` config keys read by `_process_item_with_cooldown`, with
their source defaults (`auto_merge` true, `auto_assign_next` true,
`skip_final_review` false). -/
structure DaemonConfig where
  autoMerge : Bool
  autoAssignNext : Bool
  skipFinalReview : Bool
deriving DecidableEq, Repr

/-- The collaborator calls the daemon makes while processing one item:
the PR lookup (`None` on failure, as `get_pr_by_number` catches), and the
success of each side-effecting Agent Control call. -/
structure DaemonEnv where
  config : DaemonConfig
  getPrByNumber : Nat → Option PRInfo
  requestReviewOk : Nat → Bool
  commentApplyOk : Nat → Bool
  markReadyOk : Nat → Bool
  mergeOk : Nat → Bool
  assignOk : Nat → Bool

/-- The distinct non-`None` return strings of
`_process_item_with_cooldown`, one constructor per `return` site. -/
inductive DaemonAction where
  | markedReadyReviewDone (pr : Nat)
  | mergedReviewDone (pr : Nat)
  | requestedFinalReview (pr : Nat)
  | requestedReview (pr : Nat)
  | reassignedReview (pr : Nat)
  | toldApplyChanges (pr : Nat)
  | markedReady (pr : Nat)
  | mergedAfterApproval (pr : Nat)
  | assignedToCopilot (issueNumber : Nat) (issueId : String)
deriving DecidableEq, Repr

/-- The result of processing one item: the (possibly mutated) item, the
review-tracker contents, and the action string returned. -/
structure ItemResult where
  item : QueueItem
  tracker : List Nat
  action : Option DaemonAction
deriving DecidableEq, Repr

/-- `next((i for i in queue if i.state == QUEUED), None)` (daemon.py line
640). -/
def firstQueued (queue : List QueueItem) : Option QueueItem :=
  queue.find? (fun i => i.state == .QUEUED)

/-- The in-flight items (daemon.py lines 641-642): state not in
`[QUEUED, MERGED, COMPLETED]`. -/
def activeItems (queue : List QueueItem) : List QueueItem :=
  queue.filter (fun i => i.state != .QUEUED && i.state != .MERGED && i.state != .COMPLETED)

/-- The review-done gate of `_process_item_with_cooldown` (daemon.py lines
478-544), entered when the item's PR is marked in the review tracker.
Step 1 finalizes a draft; Step 2 merges (clearing the tracker entry and
starting the cooldown); Step 3's guard `pr.state not in [PRState.APPROVED]`
is implied by Step 2's failure, so it requests one final review unless the
item is already `REVIEWING`.  Every path of the source block returns. -/
def reviewDoneBlock (env : DaemonEnv) (tracker : List Nat) (item : QueueItem)
    (prn : Nat) : ItemResult :=
  match env.getPrByNumber prn with
  | none => ⟨item, tracker, none⟩
  | some pr =>
    if pr.isDraft then
      if env.markReadyOk prn then ⟨item, tracker, some (.markedReadyReviewDone prn)⟩
      else ⟨item, tracker, none⟩
    else if pr.state == .APPROVED || item.state == .APPROVED || env.config.skipFinalReview then
      let item := { item with state := .APPROVED }
      if env.config.autoMerge then
        if env.mergeOk prn then
          ⟨{ item with state := .MERGED }, tracker.filter (· ≠ prn),
            some (.mergedReviewDone prn)⟩
        else ⟨item, tracker, none⟩
      else ⟨item, tracker, none⟩
    else
      if item.state == .REVIEWING then ⟨item, tracker, none⟩
      else if env.requestReviewOk prn then
        ⟨{ item with state := .REVIEWING }, tracker, some (.requestedFinalReview prn)⟩
      else ⟨item, tracker, none⟩

/-- The state-dispatch part of `_process_item_with_cooldown` (daemon.py
lines 546-664).  The source writes sequential `if` statements, but every
state-mutating path returns immediately and the guards test pairwise
distinct states, so the chain below is equivalent.  `queue` is the live
`self.engine.state.queue` read by the QUEUED branch. -/
def mainBranches (env : DaemonEnv) (queue : List QueueItem) (tracker : List Nat)
    (item : QueueItem) (canAssign : Bool) : ItemResult :=
  if item.state == .PR_OPEN then
    match item.prNumber with
    | some prn =>
      match env.getPrByNumber prn with
      | some pr =>
        if pr.state != .DRAFT && pr.reviewers.isEmpty then
          if env.requestReviewOk prn then
            ⟨{ item with state := .REVIEW_REQUESTED }, tracker, some (.requestedReview prn)⟩
          else ⟨item, tracker, none⟩
        else ⟨item, tracker, none⟩
      | none => ⟨item, tracker, none⟩
    | none => ⟨item, tracker, none⟩
  else if item.state == .REVIEW_REQUESTED then
    match item.prNumber with
    | some prn =>
      if env.requestReviewOk prn then
        ⟨{ item with state := .REVIEWING }, tracker, some (.reassignedReview prn)⟩
      else ⟨item, tracker, none⟩
    | none => ⟨item, tracker, none⟩
  else if item.state == .CHANGES_REQUESTED then
    match item.prNumber with
    | some prn =>
      if env.commentApplyOk prn then
        -- mark_review_done inserts the key before the state change (line 579)
        ⟨{ item with state := .APPLYING_CHANGES },
          (if tracker.contains prn then tracker else tracker ++ [prn]),
          some (.toldApplyChanges prn)⟩
      else ⟨item, tracker, none⟩
    | none => ⟨item, tracker, none⟩
  else if item.state == .APPROVED then
    match item.prNumber with
    | some prn =>
      if env.config.autoMerge then
        match env.getPrByNumber prn with
        | none => ⟨item, tracker, none⟩
        | some pr =>
          if pr.isDraft then
            if env.markReadyOk prn then ⟨item, tracker, some (.markedReady prn)⟩
            else ⟨item, tracker, none⟩
          else if env.mergeOk prn then
            ⟨{ item with state := .MERGED }, tracker, some (.mergedAfterApproval prn)⟩
          else ⟨item, tracker, none⟩
      else ⟨item, tracker, none⟩
    | none => ⟨item, tracker, none⟩
  else if item.state == .QUEUED then
    if env.config.autoAssignNext then
      if !canAssign then ⟨item, tracker, none⟩
      else
        match item.issueNumber with
        | some n =>
          if firstQueued queue == some item && (activeItems queue).isEmpty then
            if env.assignOk n then
              ⟨{ item with state := .ASSIGNED }, tracker, some (.assignedToCopilot n item.issueId)⟩
            else ⟨item, tracker, none⟩
          else ⟨item, tracker, none⟩
        | none => ⟨item, tracker, none⟩
    else ⟨item, tracker, none⟩
  else ⟨item, tracker, none⟩

/-- `AutomationDaemon._process_item_with_cooldown` (daemon.py lines
468-664): the review-done gate first, then the state dispatch. -/
def processItemWithCooldown (env : DaemonEnv) (queue : List QueueItem)
    (tracker : List Nat) (item : QueueItem) (canAssign : Bool) : ItemResult :=
  match item.prNumber with
  | some prn =>
    if tracker.contains prn then reviewDoneBlock env tracker item prn
    else mainBranches env queue tracker item canAssign
  | none => mainBranches env queue tracker item canAssign

/-- Python `"Assigned" in action` (daemon.py line 416): only the assignment
return string contains the capitalized word (`"Reassigned review..."` does
not, the test is case-sensitive). -/
def actionMentionsAssigned : DaemonAction → Bool
  | .assignedToCopilot _ _ => true
  | _ => false

/-- Python `"cooldown started" in action` (daemon.py line 420): exactly the
two merge return strings. -/
def actionMentionsCooldownStarted : DaemonAction → Bool
  | .mergedReviewDone _ => true
  | .mergedAfterApproval _ => true
  | _ => false

/-- The outcome of one daemon cycle's action loop. -/
structure CycleResult where
  queue : List QueueItem
  tracker : List Nat
  actions : List DaemonAction
  canAssign : Bool
deriving DecidableEq, Repr

/-- The `can_assign` update after one item's action (daemon.py lines
413-422): the flag is cleared when the action string contains `"Assigned"`
or `"cooldown started"`, and never set back within the cycle. -/
def nextCanAssign (canAssign : Bool) (act : Option DaemonAction) : Bool :=
  let ca2 :=
    match act with
    | some a => if actionMentionsAssigned a then false else canAssign
    | none => canAssign
  match act with
  | some a => if actionMentionsCooldownStarted a then false else ca2
  | none => ca2

/-- The `for item in self.engine.state.queue` loop of `_process_cycle`
(daemon.py lines 396-422): process each item against the live queue
(`done` already processed, `todo` remaining), collect the actions, and
thread the `can_assign` flag. -/
def runCycleGo (env : DaemonEnv) (done todo : List QueueItem) (tracker : List Nat)
    (canAssign : Bool) : CycleResult :=
  match todo with
  | [] => ⟨done, tracker, [], canAssign⟩
  | item :: rest =>
    let r := processItemWithCooldown env (done ++ item :: rest) tracker item canAssign
    let ca2 := nextCanAssign canAssign r.action
    let res := runCycleGo env (done ++ [r.item]) rest r.tracker ca2
    ⟨res.queue, res.tracker,
      (match r.action with
        | some a => a :: res.actions
        | none => res.actions),
      res.canAssign⟩

/-- One full pass of the cycle's action loop over the queue. -/
def runCycle (env : DaemonEnv) (queue : List QueueItem) (tracker : List Nat)
    (canAssign : Bool) : CycleResult :=
  runCycleGo env [] queue tracker canAssign

/-- Number of positions whose item went `QUEUED` to `ASSIGNED` between two
queue snapshots of equal length. -/
def queuedToAssigned (before after : List QueueItem) : Nat :=
  ((before.zip after).filter
    (fun p => p.1.state == .QUEUED && p.2.state == .ASSIGNED)).length

/-- Whether an action is the issue-assignment action. -/
def isAssignAction : Option DaemonAction → Bool
  | some (.assignedToCopilot _ _) => true
  | _ => false

/-- Whether an action corresponds to a `request_review_from_copilot` call
(the PR_OPEN request, the REVIEW_REQUESTED reassignment, or the final
approval-seeking request of the review-done gate). -/
def isRequestReviewCall : Option DaemonAction → Bool
  | some (.requestedReview _) => true
  | some (.reassignedReview _) => true
  | some (.requestedFinalReview _) => true
  | _ => false

/-! ## Derived scan descriptions used in proofs -/

/-- The value DETECTION 2's loop leaves in a "time of the latest matching
comment" variable: the `createdAt` of the last comment satisfying `p`. -/
def lastMatch (p : IssueComment → Bool) (cs : List IssueComment) : Option Nat :=
  cs.foldl (fun acc c => if p c then some c.createdAt else acc) none

/-! ## Concrete inputs used by witnesses and counterexamples -/

/-- The spec's stale-signal comment sequence: an apply request at time 0,
the finished announcement at 60, a second apply request at 300, and a
"started" remark at 360. -/
def c1comments : List IssueComment :=
  [⟨"@copilot apply changes based on the review comments in this thread", 0⟩,
    ⟨"Copilot finished work on behalf of user", 60⟩,
    ⟨"@copilot apply changes based on the review comments in this thread", 300⟩,
    ⟨"Copilot started work on behalf of user", 360⟩]

/-- A PR whose issue comments are the spec's stale-signal sequence. -/
def c1pr : RawPR :=
  { number := 11
    title := "Implement TC-A-01"
    bodyLinkedIssue := some "TC-A-01"
    merged := false
    closed := false
    draft := false
    headSha := "sha1"
    authorLogin := "copilot"
    mergeable := some true
    now := 400
    timelineFetch := some []
    reviewsFetch := some []
    issueCommentsFetch := some c1comments
    reviewCommentsFetch := some []
    reviewRequestsFetch := some []
    commitsFetch := some [] }

/-- Input exercising the grace-period rule: the agent's review was requested
at time 900, work started at 950 and finished at 1000; there is no pending
suggestion; `now` is the classification time. -/
def c5pr (now : Nat) : RawPR :=
  { number := 42
    title := "Add feature"
    bodyLinkedIssue := none
    merged := false
    closed := false
    draft := false
    headSha := "abc"
    authorLogin := "copilot"
    mergeable := some true
    now := now
    timelineFetch := some
      [⟨"review_requested", some 900⟩, ⟨"copilot_work_started", some 950⟩,
        ⟨"copilot_work_finished", some 1000⟩]
    reviewsFetch := some []
    issueCommentsFetch := some []
    reviewCommentsFetch := some []
    reviewRequestsFetch := some []
    commitsFetch := some [] }

/-- Counterexample input for C8: every signal source is healthy except the
formal-reviews fetch (`list(pr.get_reviews())`, github_client.py line 367),
which raises. -/
def c8pr : RawPR :=
  { number := 7
    title := "Fix bug"
    bodyLinkedIssue := none
    merged := false
    closed := false
    draft := false
    headSha := "def"
    authorLogin := "copilot"
    mergeable := some true
    now := 0
    timelineFetch := some []
    reviewsFetch := none
    issueCommentsFetch := some []
    reviewCommentsFetch := some []
    reviewRequestsFetch := some []
    commitsFetch := some [] }

/-- Input for the C8 witness: reviews and requested-reviewers fetches
succeed while every protected signal source fails. -/
def c8wpr : RawPR :=
  { number := 8
    title := "Refactor"
    bodyLinkedIssue := none
    merged := false
    closed := false
    draft := false
    headSha := "ghi"
    authorLogin := "copilot"
    mergeable := none
    now := 0
    timelineFetch := none
    reviewsFetch := some []
    issueCommentsFetch := none
    reviewCommentsFetch := none
    reviewRequestsFetch := some []
    commitsFetch := none }

/-- Counterexample input for C7: the timeline says the agent's review
completed (review requested at 0, work started at 1, work finished at 2),
while a later apply-changes comment at 10 has no finished announcement, so
`copilot_is_working` ends up true; there is no pending suggestion. -/
def c7pr : RawPR :=
  { number := 21
    title := "Implement TC-B-02"
    bodyLinkedIssue := some "TC-B-02"
    merged := false
    closed := false
    draft := false
    headSha := "sha7"
    authorLogin := "copilot"
    mergeable := some true
    now := 200
    timelineFetch := some
      [⟨"review_requested", some 0⟩, ⟨"copilot_work_started", some 1⟩,
        ⟨"copilot_work_finished", some 2⟩]
    reviewsFetch := some []
    issueCommentsFetch := some
      [⟨"@copilot apply changes based on the review comments in this thread", 10⟩]
    reviewCommentsFetch := some []
    reviewRequestsFetch := some []
    commitsFetch := some [] }

/-- Witness input for C7 as amended: the agent is working (un-answered apply
request) and nothing deems its review complete. -/
def c7wpr : RawPR :=
  { number := 22
    title := "Implement TC-B-03"
    bodyLinkedIssue := some "TC-B-03"
    merged := false
    closed := false
    draft := false
    headSha := "sha8"
    authorLogin := "copilot"
    mergeable := some true
    now := 200
    timelineFetch := some []
    reviewsFetch := some []
    issueCommentsFetch := some
      [⟨"@copilot apply changes based on the review comments in this thread", 10⟩]
    reviewCommentsFetch := some []
    reviewRequestsFetch := some []
    commitsFetch := some [] }

/-- A classified PR for the C6 counterexample: the classifier reported
`DRAFT` (a draft with no reviewer request and no review activity). -/
def c6draftPr : PRInfo :=
  { number := 3
    title := "WIP"
    state := .DRAFT
    author := "copilot"
    reviewers := []
    reviewState := none
    linkedIssue := none
    mergeable := false
    checksPassed := true
    isDraft := true
    copilotHasReviewed := false
    copilotIsWorking := false }

/-- Engine environment for the C6 counterexample: the item's issue is in
progress and its PR classifies as `DRAFT`. -/
def c6env : EngineEnv :=
  { issueNumbers := fun _ => none
    getIssueByNumber := fun _ => some ⟨9, .IN_PROGRESS⟩
    getIssueByPattern := fun _ => none
    getPrByNumber := fun _ => some c6draftPr
    getPrByIssue := fun _ => none }

/-- A queue item currently in `REVIEWING` with a known issue and PR. -/
def c6item : QueueItem :=
  { issueId := "TC-A-01", state := .REVIEWING, issueNumber := some 9, prNumber := some 3 }

/-- A classified PR for the C6 witness: the classifier reported
`REVIEW_REQUESTED`. -/
def c6wpr : PRInfo :=
  { number := 3
    title := "WIP"
    state := .REVIEW_REQUESTED
    author := "copilot"
    reviewers := ["copilot"]
    reviewState := none
    linkedIssue := none
    mergeable := false
    checksPassed := true
    isDraft := false
    copilotHasReviewed := false
    copilotIsWorking := false }

/-- Engine environment for the C6 witness. -/
def c6wenv : EngineEnv :=
  { issueNumbers := fun _ => none
    getIssueByNumber := fun _ => some ⟨9, .IN_PROGRESS⟩
    getIssueByPattern := fun _ => none
    getPrByNumber := fun _ => some c6wpr
    getPrByIssue := fun _ => none }

/-- A two-item queue with distinct issue ids, for the C9 witness. -/
def c9queue : List QueueItem :=
  [{ issueId := "TC-A-01", state := .QUEUED, issueNumber := some 5, prNumber := none },
    { issueId := "TC-A-02", state := .QUEUED, issueNumber := some 6, prNumber := none }]

/-- A classified open, non-draft, unapproved PR, as the daemon sees it. -/
def c2openPr : PRInfo :=
  { number := 7
    title := "Implement TC-C-01"
    state := .OPEN
    author := "copilot"
    reviewers := []
    reviewState := none
    linkedIssue := some "TC-C-01"
    mergeable := true
    checksPassed := true
    isDraft := false
    copilotHasReviewed := false
    copilotIsWorking := false }

/-- Daemon environment for the C2 scenario: default config, every agent
call succeeds, and PR 7 classifies as `c2openPr`. -/
def c2env : DaemonEnv :=
  { config := { autoMerge := true, autoAssignNext := true, skipFinalReview := false }
    getPrByNumber := fun _ => some c2openPr
    requestReviewOk := fun _ => true
    commentApplyOk := fun _ => true
    markReadyOk := fun _ => true
    mergeOk := fun _ => true
    assignOk := fun _ => true }

/-- An item whose PR 7 is marked done in the review tracker. -/
def c2item : QueueItem :=
  { issueId := "TC-C-01", state := .PR_OPEN, issueNumber := some 9, prNumber := some 7 }

/-- Daemon environment for the C3 witness: default config, assignments
succeed, no PR lookups needed. -/
def c3env : DaemonEnv :=
  { config := { autoMerge := true, autoAssignNext := true, skipFinalReview := false }
    getPrByNumber := fun _ => none
    requestReviewOk := fun _ => false
    commentApplyOk := fun _ => false
    markReadyOk := fun _ => false
    mergeOk := fun _ => false
    assignOk := fun _ => true }

/-- First item of the C3 witness queue. -/
def c3itemA : QueueItem :=
  { issueId := "TC-A-01", state := .QUEUED, issueNumber := some 5, prNumber := none }

/-- Second item of the C3 witness queue. -/
def c3itemB : QueueItem :=
  { issueId := "TC-A-02", state := .QUEUED, issueNumber := some 6, prNumber := none }

/-- The C3 witness queue: two queued items, nothing in flight. -/
def c3queue : List QueueItem :=
  [c3itemA, c3itemB]

/-! ## Claims about the cooldown manager (C4, C10) -/

/-- C4: `CooldownManager.can_assign()` returns true iff no cooldown record
exists or `now >= completedAt + cooldownDuration`; it is false immediately
after `record_completion` for any positive cooldown duration; and for a
fixed record it never flips from true back to false as time advances
without an intervening `record_completion`. -/
theorem claim4_cooldown_can_assign (cooldownMinutes now t n1 n2 : Nat) :
    ((cooldownCanAssign .noFile cooldownMinutes now).1 = true)
    ∧ ((cooldownCanAssign (.record t) cooldownMinutes now).1 = true ↔
        now ≥ t + cooldownMinutes * 60)
    ∧ (0 < cooldownMinutes →
        (cooldownCanAssign (recordCompletion now) cooldownMinutes now).1 = false)
    ∧ (n1 ≤ n2 →
        (cooldownCanAssign (.record t) cooldownMinutes n1).1 = true →
        (cooldownCanAssign (.record t) cooldownMinutes n2).1 = true) := by
  refine ⟨rfl, ?_, ?_, ?_⟩
  · simp only [cooldownCanAssign]
    constructor
    · intro h
      split at h
      · assumption
      · simp at h
    · intro h
      simp [h]
  · intro hpos
    simp only [recordCompletion, cooldownCanAssign]
    split
    · omega
    · simp
  · intro h12 h1
    simp only [cooldownCanAssign] at h1 ⊢
    split at h1
    · split
      · simp
      · omega
    · simp at h1

/-- Witness for C4 at a 60-minute cooldown: assignment is blocked at the
completion instant and allowed from 3600 seconds on, monotonically. -/
theorem claim4_witness :
    ((cooldownCanAssign (recordCompletion 0) 60 0).1 = false)
    ∧ ((cooldownCanAssign (.record 0) 60 3600).1 = true)
    ∧ ((cooldownCanAssign (.record 0) 60 4000).1 = true) := by
  have h := claim4_cooldown_can_assign 60 3600 0 3600 4000
  exact ⟨(claim4_cooldown_can_assign 60 0 0 0 0).2.2.1 (by decide),
    h.2.1.mpr (by decide), h.2.2.2 (by decide) (h.2.1.mpr (by decide))⟩

/-- C10: when the cooldown record exists but is unreadable or malformed,
`can_assign()` returns `(True, None)` — a corrupt record behaves as if no
cooldown were active. -/
theorem claim10_corrupt_record_permits_assignment (cooldownMinutes now : Nat) :
    cooldownCanAssign .malformed cooldownMinutes now = (true, none) :=
  rfl

/-! ## Claims about the classifier (C5, C8) -/

/-- C5 (code bug): the source intends a 120-second grace period (its
comments and debug strings at github_client.py lines 417-425 and 544-553
describe it), but the `seconds_since_finish` computation subtracts the raw
ISO-8601 timeline string from a `datetime`, raising `TypeError` which the
blanket `except` swallows, so `copilot_work_just_finished` is never set.
Classification of the grace-period input is therefore `APPROVED` at every
classification time — in particular at `now = 1060`, only 60 seconds after
the review finished, where both the spec and the source's own comments
require `REVIEW_REQUESTED`. -/
theorem claim5_grace_period_never_applies (now : Nat) :
    (toPrInfo (c5pr now)).map PRInfo.state = some PRState.APPROVED :=
  rfl

/-- Counterexample for C8: a failed reviews fetch propagates out of
`_to_pr_info` (it sits outside every `try` block), so classification does
not return a value. -/
theorem claim8_counterexample : toPrInfo c8pr = none :=
  rfl

/-- C8 as amended: classification returns a value whenever the two
unprotected fetches (formal reviews, requested reviewers) succeed; the
timeline, issue-comment, review-comment and commit fetches may all fail and
merely contribute nothing. -/
theorem claim8_amended_totality (pr : RawPR) (rs : List Review) (rr : List String)
    (h1 : pr.reviewsFetch = some rs) (h2 : pr.reviewRequestsFetch = some rr) :
    (toPrInfo pr).isSome = true := by
  simp [toPrInfo, h1, h2]

/-- Witness for C8 as amended: with the timeline, comment, review-comment
and commit fetches all failing, classification still returns a value. -/
theorem claim8_witness : (toPrInfo c8wpr).isSome = true :=
  claim8_amended_totality c8wpr [] [] rfl rfl

/-! ## The stale-apply-signal rule (C1) -/

/-- Folding a "keep the last match" update equals finding the first match of
the reversed list. -/
theorem foldr_lastMatch (p : IssueComment → Bool) :
    ∀ rs : List IssueComment,
      rs.foldr (fun c acc => if p c then some c.createdAt else acc) none
        = (rs.find? p).map (·.createdAt)
  | [] => rfl
  | c :: rs => by
    by_cases h : p c <;>
      simp [List.find?_cons, h, foldr_lastMatch p rs]

/-- `lastMatch` is the timestamp of the first match of the reversed list. -/
theorem lastMatch_eq_find?_reverse (p : IssueComment → Bool) (cs : List IssueComment) :
    lastMatch p cs = (cs.reverse.find? p).map (·.createdAt) := by
  rw [← foldr_lastMatch p cs.reverse, List.foldr_reverse]
  rfl

/-- On a list sorted by descending timestamp, the first match's timestamp
bounds every match's timestamp. -/
theorem find?_last_is_ub (p : IssueComment → Bool) :
    ∀ (rs : List IssueComment),
      rs.Pairwise (fun a b => b.createdAt ≤ a.createdAt) →
      ∀ c, rs.find? p = some c → ∀ c' ∈ rs, p c' = true → c'.createdAt ≤ c.createdAt
  | [], _, c, h => by simp at h
  | x :: rs, hp, c, h => by
    rw [List.pairwise_cons] at hp
    by_cases hx : p x
    · rw [List.find?_cons_of_pos rs hx] at h
      cases h
      intro c' hc' _
      rcases List.mem_cons.mp hc' with rfl | hmem
      · exact le_refl _
      · exact hp.1 c' hmem
    · rw [List.find?_cons_of_neg rs (by simpa using hx)] at h
      intro c' hc' hpc'
      rcases List.mem_cons.mp hc' with rfl | hmem
      · exact absurd hpc' (by simpa using hx)
      · exact find?_last_is_ub p rs hp.2 c h c' hmem hpc'

/-- DETECTION 2's scan in closed form: the apply flag is an `any`, and the
two timestamp variables are `lastMatch` values. -/
theorem applyScan_eq (cs : List IssueComment) :
    applyScan cs =
      ⟨cs.any isApplyRequest, lastMatch isApplyRequest cs, lastMatch isFinishedWork cs⟩ := by
  have key : ∀ (cs : List IssueComment) (acc : ApplyScan),
      cs.foldl (fun acc c =>
        let acc :=
          if isApplyRequest c then
            { acc with hasApply := true, lastApplyTime := some c.createdAt }
          else acc
        if isFinishedWork c then { acc with lastFinishedTime := some c.createdAt }
        else acc) acc =
      ⟨acc.hasApply || cs.any isApplyRequest,
        cs.foldl (fun a c => if isApplyRequest c then some c.createdAt else a) acc.lastApplyTime,
        cs.foldl (fun a c => if isFinishedWork c then some c.createdAt else a)
          acc.lastFinishedTime⟩ := by
    intro cs
    induction cs with
    | nil => intro acc; simp
    | cons c cs ih =>
      intro acc
      by_cases h1 : isApplyRequest c <;> by_cases h2 : isFinishedWork c <;>
        simp [h1, h2, ih]
  simpa [applyScan, lastMatch] using key cs ⟨false, none, none⟩

/-- The stale-signal rule at the level of DETECTION 2's decision: on a
comment list sorted by timestamp and containing an apply request, the
decision reports "working" exactly when no finished announcement is
strictly later than the latest apply request. -/
theorem applyDecision_eq_true_iff (tlW : Bool) (cs : List IssueComment)
    (hsort : cs.Pairwise (fun a b => a.createdAt ≤ b.createdAt))
    (happly : ∃ a ∈ cs, isApplyRequest a = true) :
    applyDecision tlW (some cs) = true ↔
      ∀ c ∈ cs, isFinishedWork c = true →
        ∃ a ∈ cs, isApplyRequest a = true ∧ c.createdAt ≤ a.createdAt := by
  have hrev : cs.reverse.Pairwise (fun a b => b.createdAt ≤ a.createdAt) := by
    rw [List.pairwise_reverse]; exact hsort
  have hany : cs.any isApplyRequest = true := List.any_eq_true.mpr happly
  have hfindA : ∃ aL, cs.reverse.find? isApplyRequest = some aL := by
    rw [← Option.isSome_iff_exists, List.find?_isSome]
    obtain ⟨a, ha, hpa⟩ := happly
    exact ⟨a, List.mem_reverse.mpr ha, hpa⟩
  obtain ⟨aL, hA⟩ := hfindA
  have haLmem : aL ∈ cs := List.mem_reverse.mp (List.mem_of_find?_eq_some hA)
  have haLp : isApplyRequest aL = true := List.find?_some hA
  have haLub : ∀ c' ∈ cs, isApplyRequest c' = true → c'.createdAt ≤ aL.createdAt :=
    fun c' hc' hp => find?_last_is_ub _ _ hrev aL hA c' (List.mem_reverse.mpr hc') hp
  have hlmA : lastMatch isApplyRequest cs = some aL.createdAt := by
    rw [lastMatch_eq_find?_reverse, hA]; rfl
  cases hF : cs.reverse.find? isFinishedWork with
  | none =>
    have hnofin : ∀ c ∈ cs, isFinishedWork c = true → False := by
      intro c hc hp
      have hs : (cs.reverse.find? isFinishedWork).isSome := by
        rw [List.find?_isSome]
        exact ⟨c, List.mem_reverse.mpr hc, hp⟩
      rw [hF] at hs
      simp at hs
    have hlmF : lastMatch isFinishedWork cs = none := by
      rw [lastMatch_eq_find?_reverse, hF]; rfl
    constructor
    · intro _ c hc hp
      exact absurd (hnofin c hc hp) not_false
    · intro _
      simp [applyDecision, applyScan_eq, hany, hlmA, hlmF]
  | some fL =>
    have hfLmem : fL ∈ cs := List.mem_reverse.mp (List.mem_of_find?_eq_some hF)
    have hfLp : isFinishedWork fL = true := List.find?_some hF
    have hfLub : ∀ c' ∈ cs, isFinishedWork c' = true → c'.createdAt ≤ fL.createdAt :=
      fun c' hc' hp => find?_last_is_ub _ _ hrev fL hF c' (List.mem_reverse.mpr hc') hp
    have hlmF : lastMatch isFinishedWork cs = some fL.createdAt := by
      rw [lastMatch_eq_find?_reverse, hF]; rfl
    constructor
    · intro hv c hc hp
      have hle : fL.createdAt ≤ aL.createdAt := by
        simp [applyDecision, applyScan_eq, hany, hlmA, hlmF] at hv
        omega
      exact ⟨aL, haLmem, haLp, le_trans (hfLub c hc hp) hle⟩
    · intro hR
      obtain ⟨a', ha'mem, ha'p, hle1⟩ := hR fL hfLmem hfLp
      have hle2 : a'.createdAt ≤ aL.createdAt := haLub a' ha'mem ha'p
      simp [applyDecision, applyScan_eq, hany, hlmA, hlmF]
      omega

/-- The `copilot_is_working` field of a successful classification is the
value of the apply-request decision. -/
theorem toPrInfo_copilotIsWorking (pr : RawPR) (info : PRInfo)
    (h : toPrInfo pr = some info) :
    info.copilotIsWorking =
      applyDecision (timelineDetection pr.now pr.timelineFetch).working
        pr.issueCommentsFetch := by
  cases hrf : pr.reviewsFetch with
  | none => simp [toPrInfo, hrf] at h
  | some rs =>
    cases hrr : pr.reviewRequestsFetch with
    | none => simp [toPrInfo, hrf, hrr] at h
    | some rr =>
      simp [toPrInfo, hrf, hrr] at h
      subst h
      rfl

/-- C1: for every comment list containing at least one apply request (the
list sorted by creation time, as the comments API returns it), the
classifier reports the agent as working exactly when no finished
announcement has a timestamp strictly later than the most recent apply
request. -/
theorem claim1_stale_finished_signals_ignored (pr : RawPR) (cs : List IssueComment)
    (info : PRInfo)
    (hcs : pr.issueCommentsFetch = some cs)
    (hsort : cs.Pairwise (fun a b => a.createdAt ≤ b.createdAt))
    (happly : ∃ a ∈ cs, isApplyRequest a = true)
    (hinfo : toPrInfo pr = some info) :
    info.copilotIsWorking = true ↔
      ∀ c ∈ cs, isFinishedWork c = true →
        ∃ a ∈ cs, isApplyRequest a = true ∧ c.createdAt ≤ a.createdAt := by
  rw [toPrInfo_copilotIsWorking pr info hinfo, hcs]
  exact applyDecision_eq_true_iff _ cs hsort happly

/-- Witness for C1 at the spec's concrete sequence `[apply at 0, finished at
60, apply at 300, started at 360]`: the classifier reports the agent as
working, because the finished announcement precedes the latest apply
request. -/
theorem claim1_witness :
    (toPrInfo c1pr).map PRInfo.copilotIsWorking = some true := by
  match hinfo : toPrInfo c1pr with
  | none => exact absurd hinfo (by decide)
  | some info =>
    have h := (claim1_stale_finished_signals_ignored c1pr c1comments info rfl
      (by decide) (by decide) hinfo).mpr (by decide)
    simp [h]

/-! ## The working flag versus completed states (C7) -/

/-- Transport a field fact along a successful classification. -/
theorem option_map_field {α β : Type} (f : α → β) (o : Option α) (x : α) (y : β)
    (ho : o = some x) (hmap : o.map f = some y) : f x = y := by
  rw [ho] at hmap
  simpa using hmap

/-- Successful classification determines the verdict-relevant fields of the
result from the raw facts. -/
theorem toPrInfo_inv (pr : RawPR) (info : PRInfo) (h : toPrInfo pr = some info) :
    ∃ (rs : List Review) (rr : List String),
      pr.reviewsFetch = some rs ∧ pr.reviewRequestsFetch = some rr ∧
      info.reviewState = rs.getLast?.map Review.state ∧
      info.copilotHasReviewed =
        ((timelineDetection pr.now pr.timelineFetch).reviewed
          || rs.any reviewBodyIsCopilotSig) ∧
      info.state = resolveState pr (rs.getLast?.map Review.state)
        ((timelineDetection pr.now pr.timelineFetch).reviewed
          || rs.any reviewBodyIsCopilotSig)
        (hasPendingSuggestions
          ((timelineDetection pr.now pr.timelineFetch).reviewed
            || rs.any reviewBodyIsCopilotSig)
          pr.headSha pr.reviewCommentsFetch)
        (timelineDetection pr.now pr.timelineFetch).justFinished rr := by
  cases hrf : pr.reviewsFetch with
  | none => simp [toPrInfo, hrf] at h
  | some rs =>
    cases hrr : pr.reviewRequestsFetch with
    | none => simp [toPrInfo, hrf, hrr] at h
    | some rr =>
      simp [toPrInfo, hrf, hrr] at h
      subst h
      exact ⟨rs, rr, rfl, rfl, rfl, rfl, rfl⟩

/-- The priority chain reports `APPROVED` only on a formal `APPROVED`
verdict or once the agent is deemed to have reviewed. -/
theorem resolveState_approved_inv (pr : RawPR) (rsSt : Option String)
    (chr pending jf : Bool) (rr : List String)
    (h : resolveState pr rsSt chr pending jf rr = .APPROVED) :
    rsSt = some "APPROVED" ∨ chr = true := by
  by_cases hchr : chr = true
  · exact Or.inr hchr
  · left
    have hc : chr = false := by simpa using hchr
    subst hc
    unfold resolveState at h
    repeat' split at h
    all_goals simp_all

/-- Counterexample for C7: a classification can report the agent as working
and nevertheless yield `APPROVED` — the working flag does not gate the
priority chain. -/
theorem claim7_counterexample :
    (toPrInfo c7pr).map PRInfo.copilotIsWorking = some true
    ∧ (toPrInfo c7pr).map PRInfo.state = some PRState.APPROVED :=
  ⟨rfl, rfl⟩

/-- C7 as amended: when the classifier reports the agent as working, and
additionally nothing has deemed the agent's review complete
(`copilot_has_reviewed` is false) and no formal `APPROVED` verdict exists,
the classifier does not report `APPROVED`. -/
theorem claim7_amended_working_no_approved (pr : RawPR) (info : PRInfo)
    (hinfo : toPrInfo pr = some info)
    (_hw : info.copilotIsWorking = true)
    (hnr : info.copilotHasReviewed = false)
    (hfv : info.reviewState ≠ some "APPROVED") :
    info.state ≠ PRState.APPROVED := by
  intro hap
  obtain ⟨rs, rr, hrf, hrr, hrev, hchr, hst⟩ := toPrInfo_inv pr info hinfo
  rw [hst] at hap
  rcases resolveState_approved_inv pr _ _ _ _ _ hap with h | h
  · exact hfv (by rw [hrev]; exact h)
  · rw [← hchr, hnr] at h
    exact Bool.false_ne_true h

/-- Witness for C7 as amended: with an un-answered apply request and no
review-completion signal, classification does not yield `APPROVED`. -/
theorem claim7_witness :
    (toPrInfo c7wpr).map PRInfo.state ≠ some PRState.APPROVED := by
  match hinfo : toPrInfo c7wpr with
  | none => exact absurd hinfo (by decide)
  | some info =>
    have hw : info.copilotIsWorking = true :=
      option_map_field PRInfo.copilotIsWorking _ info true hinfo (by decide)
    have hnr : info.copilotHasReviewed = false :=
      option_map_field PRInfo.copilotHasReviewed _ info false hinfo (by decide)
    have hrs : info.reviewState = none :=
      option_map_field PRInfo.reviewState _ info none hinfo (by decide)
    have hthm := claim7_amended_working_no_approved c7wpr info hinfo hw hnr
      (by rw [hrs]; simp)
    intro hc
    exact hthm (by simpa using hc)

/-! ## Status refresh and the don't-regress rule (C6) -/

/-- The issue-resolution preamble never changes the item's state or PR
number (it only backfills `issue_number`). -/
theorem resolveIssue_preserves (env : EngineEnv) (item : QueueItem) :
    (resolveIssue env item).1.state = item.state
    ∧ (resolveIssue env item).1.prNumber = item.prNumber := by
  unfold resolveIssue
  repeat' split
  all_goals simp

/-- For an item in `REVIEWING` or `APPLYING_CHANGES`, a classified
`REVIEW_REQUESTED` or plain-open signal leaves the state unchanged. -/
theorem applyPrSignal_preserves_state (item : QueueItem) (pr : PRInfo)
    (hstate : item.state = .REVIEWING ∨ item.state = .APPLYING_CHANGES)
    (hsig : pr.state = .REVIEW_REQUESTED ∨ pr.state = .OPEN) :
    (applyPrSignal item pr).state = item.state := by
  rcases hstate with h1 | h1 <;> rcases hsig with h2 | h2 <;>
    by_cases hr : pr.reviewers.isEmpty <;>
      simp [applyPrSignal, h1, h2, hr]

/-- Counterexample for C6: a `REVIEWING` item whose PR classifies as
`DRAFT` is regressed to `PR_OPEN` by the status refresh — the `DRAFT`
branch carries no don't-regress guard. -/
theorem claim6_counterexample :
    c6item.state = WorkflowState.REVIEWING
    ∧ (updateItemStatus c6env c6item).state = WorkflowState.PR_OPEN :=
  ⟨rfl, rfl⟩

/-- C6 as amended: the status refresh never regresses a `REVIEWING` or
`APPLYING_CHANGES` item on a classified `REVIEW_REQUESTED` or plain-open
signal (with or without a stray reviewer list); a classified `DRAFT`,
however, resets the item to `PR_OPEN`. -/
theorem claim6_amended_no_regression (env : EngineEnv) (item : QueueItem)
    (iss : IssueView) (pr : PRInfo)
    (hstate : item.state = .REVIEWING ∨ item.state = .APPLYING_CHANGES)
    (hiss : (resolveIssue env item).2 = some iss)
    (hopen : iss.state ≠ .CLOSED)
    (hpr : lookupPr env (resolveIssue env item).1 iss = some pr)
    (hsig : pr.state = .REVIEW_REQUESTED ∨ pr.state = .OPEN) :
    (updateItemStatus env item).state = item.state := by
  have hpres := resolveIssue_preserves env item
  have happ := applyPrSignal_preserves_state (resolveIssue env item).1 pr
    (by rw [hpres.1]; exact hstate) hsig
  unfold updateItemStatus
  rw [show resolveIssue env item = ((resolveIssue env item).1, some iss) from by
    rw [← hiss]]
  have hq : ((resolveIssue env item).1.state == WorkflowState.QUEUED) = false := by
    rcases hstate with h | h <;> simp [hpres.1, h]
  have hcl : (iss.state == IssueState.CLOSED) = false := by
    cases h : iss.state <;> simp_all
  simp only [hcl, hq, hpr]
  rcases hstate with h | h <;> simp [h, happ, hpres.1]

/-- Witness for C6 as amended: a `REVIEWING` item whose PR classifies as
`REVIEW_REQUESTED` stays in `REVIEWING`. -/
theorem claim6_witness :
    (updateItemStatus c6wenv c6item).state = WorkflowState.REVIEWING := by
  have h := claim6_amended_no_regression c6wenv c6item ⟨9, .IN_PROGRESS⟩ c6wpr
    (Or.inl rfl) (by decide) (by decide) (by decide) (Or.inl rfl)
  exact h

/-! ## Queue-editing invariants (C9) -/

/-- Inserting at a valid index is, up to permutation, a cons. -/
theorem insertIdx_perm_cons :
    ∀ (n : Nat) (a : QueueItem) (l : List QueueItem), n ≤ l.length →
      (l.insertIdx n a).Perm (a :: l)
  | 0, a, l, _ => by simp
  | n + 1, _, [], h => by simp at h
  | n + 1, a, x :: l, h => by
    rw [List.insertIdx_succ_cons l x a n]
    exact ((insertIdx_perm_cons n a l (by simpa using h)).cons x).trans
      (List.Perm.swap a x l)

/-- A successful `move_item_up` permutes the queue. -/
theorem moveUpAux_perm (issueId : String) :
    ∀ (q q2 : List QueueItem), moveUpAux issueId q = some q2 → q2.Perm q
  | [], _, h => by simp [moveUpAux] at h
  | [_], _, h => by simp [moveUpAux] at h
  | x :: y :: rest, q2, h => by
    simp only [moveUpAux] at h
    split at h
    · injection h with h
      subst h
      exact List.Perm.swap x y rest
    · cases hm : moveUpAux issueId (y :: rest) with
      | none => rw [hm] at h; simp at h
      | some l =>
        rw [hm] at h
        injection h with h
        subst h
        exact (moveUpAux_perm issueId (y :: rest) l hm).cons x

/-- A successful `move_item_down` permutes the queue. -/
theorem moveDownAux_perm (issueId : String) :
    ∀ (q q2 : List QueueItem), moveDownAux issueId q = some q2 → q2.Perm q
  | [], _, h => by simp [moveDownAux] at h
  | [_], _, h => by simp [moveDownAux] at h
  | x :: y :: rest, q2, h => by
    simp only [moveDownAux] at h
    split at h
    · injection h with h
      subst h
      exact List.Perm.swap x y rest
    · cases hm : moveDownAux issueId (y :: rest) with
      | none => rw [hm] at h; simp at h
      | some l =>
        rw [hm] at h
        injection h with h
        subst h
        exact (moveDownAux_perm issueId (y :: rest) l hm).cons x

/-- A successful `remove_item` leaves a queue whose id list is a sublist of
the original's. -/
theorem removeItemAux_ids_sublist (issueId : String) :
    ∀ (q q2 : List QueueItem), removeItemAux issueId q = some q2 →
      (queueIds q2).Sublist (queueIds q)
  | [], _, h => by simp [removeItemAux] at h
  | x :: rest, q2, h => by
    simp only [removeItemAux] at h
    split at h
    · injection h with h
      subst h
      exact List.sublist_cons_self _ _
    · cases hm : removeItemAux issueId rest with
      | none => rw [hm] at h; simp at h
      | some l =>
        rw [hm] at h
        injection h with h
        subst h
        exact (removeItemAux_ids_sublist issueId rest l hm).cons₂ _

/-- `add_item` on a queue not containing the id reports success and, up to
permutation, conses exactly one fresh item. -/
theorem addItem_fresh (numbers : String → Option Nat) (q : List QueueItem)
    (issueId : String) (pos : Int)
    (habs : q.any (fun it => it.issueId == issueId) = false) :
    (addItem numbers q issueId pos).1 = true
    ∧ (addItem numbers q issueId pos).2.Perm
        ({ issueId := issueId, state := .QUEUED, issueNumber := numbers issueId,
            prNumber := none } :: q) := by
  unfold addItem
  rw [habs]
  simp only [Bool.false_eq_true, if_false]
  split
  · exact ⟨rfl, List.perm_append_singleton _ _⟩
  · refine ⟨rfl, insertIdx_perm_cons _ _ _ ?_⟩
    rename_i hcond
    simp only [Bool.or_eq_true, decide_eq_true_eq, not_or, not_lt, not_le] at hcond
    omega

/-- Every queue-editing operation preserves pairwise-distinct issue ids. -/
theorem applyOp_nodup (numbers : String → Option Nat) (q : List QueueItem)
    (hnd : (queueIds q).Nodup) (op : QueueOp) :
    (queueIds (applyOp numbers q op)).Nodup := by
  cases op with
  | add issueId pos =>
    by_cases hmem : q.any (fun it => it.issueId == issueId) = true
    · have : addItem numbers q issueId pos = (false, q) := by
        unfold addItem
        rw [hmem]
        simp
      simpa [applyOp, this] using hnd
    · have habs : q.any (fun it => it.issueId == issueId) = false := by
        simpa using hmem
      have hperm := (addItem_fresh numbers q issueId pos habs).2
      have hids : (queueIds (addItem numbers q issueId pos).2).Perm
          (issueId :: queueIds q) := by
        simpa [queueIds] using hperm.map (·.issueId)
      rw [applyOp]
      refine hids.nodup_iff.mpr (List.Nodup.cons ?_ hnd)
      intro hmem2
      obtain ⟨it, hit, hid⟩ := List.mem_map.mp hmem2
      exact absurd habs (by
        rw [List.any_eq_true.mpr ⟨it, hit, by simp [hid]⟩]
        simp)
  | remove issueId =>
    cases hm : removeItemAux issueId q with
    | none => simpa [applyOp, removeItem, hm] using hnd
    | some l =>
      have hsub := removeItemAux_ids_sublist issueId q l hm
      simpa [applyOp, removeItem, hm] using hsub.nodup hnd
  | moveUp issueId =>
    cases hm : moveUpAux issueId q with
    | none => simpa [applyOp, moveItemUp, hm] using hnd
    | some l =>
      have hperm := (moveUpAux_perm issueId q l hm).map (·.issueId)
      simpa [applyOp, moveItemUp, hm, queueIds] using
        ((show (queueIds l).Perm (queueIds q) from hperm).nodup_iff.mpr hnd)
  | moveDown issueId =>
    cases hm : moveDownAux issueId q with
    | none => simpa [applyOp, moveItemDown, hm] using hnd
    | some l =>
      have hperm := (moveDownAux_perm issueId q l hm).map (·.issueId)
      simpa [applyOp, moveItemDown, hm, queueIds] using
        ((show (queueIds l).Perm (queueIds q) from hperm).nodup_iff.mpr hnd)

/-- Any sequence of queue-editing operations preserves pairwise-distinct
issue ids. -/
theorem applyOps_nodup (numbers : String → Option Nat) (ops : List QueueOp) :
    ∀ q : List QueueItem, (queueIds q).Nodup →
      (queueIds (applyOps numbers q ops)).Nodup := by
  induction ops with
  | nil =>
    intro q h
    simpa [applyOps] using h
  | cons op ops ih =>
    intro q h
    have : applyOps numbers q (op :: ops) = applyOps numbers (applyOp numbers q op) ops := by
      simp [applyOps]
    rw [this]
    exact ih _ (applyOp_nodup numbers q h op)

/-- C9: on queues with pairwise distinct issue ids, `add_item` refuses a
duplicate id and leaves the queue unchanged, otherwise succeeds and inserts
exactly one fresh item; and no sequence of `add_item`, `remove_item`,
`move_item_up`, `move_item_down` produces two items with the same id. -/
theorem claim9_queue_id_uniqueness (numbers : String → Option Nat)
    (q : List QueueItem) (hnd : (queueIds q).Nodup) :
    (∀ issueId pos,
      (q.any (fun it => it.issueId == issueId) = true →
        addItem numbers q issueId pos = (false, q))
      ∧ (q.any (fun it => it.issueId == issueId) = false →
        (addItem numbers q issueId pos).1 = true
        ∧ (addItem numbers q issueId pos).2.Perm
            ({ issueId := issueId, state := .QUEUED, issueNumber := numbers issueId,
                prNumber := none } :: q)))
    ∧ ∀ ops : List QueueOp, (queueIds (applyOps numbers q ops)).Nodup := by
  refine ⟨fun issueId pos => ⟨fun hmem => ?_, fun habs => addItem_fresh numbers q issueId pos habs⟩,
    fun ops => applyOps_nodup numbers ops q hnd⟩
  unfold addItem
  rw [hmem]
  simp

/-- Witness for C9 on a concrete two-item queue: a duplicate add is
refused, and a mixed operation sequence keeps the ids distinct. -/
theorem claim9_witness :
    (addItem (fun _ => none) c9queue "TC-A-01" (-1) = (false, c9queue))
    ∧ (queueIds (applyOps (fun _ => none) c9queue
        [QueueOp.add "TC-A-03" 0, QueueOp.moveUp "TC-A-02",
          QueueOp.remove "TC-A-01"])).Nodup := by
  have h := claim9_queue_id_uniqueness (fun _ => none) c9queue (by decide)
  exact ⟨(h.1 "TC-A-01" (-1)).1 (by decide),
    h.2 [QueueOp.add "TC-A-03" 0, QueueOp.moveUp "TC-A-02", QueueOp.remove "TC-A-01"]⟩

/-! ## Daemon guard lemmas (C2, C3) -/

/-- The review-done gate only ever returns its own three actions. -/
theorem reviewDoneBlock_actions (env : DaemonEnv) (tr : List Nat) (it : QueueItem)
    (prn : Nat) :
    (reviewDoneBlock env tr it prn).action = none
    ∨ (reviewDoneBlock env tr it prn).action = some (.markedReadyReviewDone prn)
    ∨ (reviewDoneBlock env tr it prn).action = some (.mergedReviewDone prn)
    ∨ (reviewDoneBlock env tr it prn).action = some (.requestedFinalReview prn) := by
  unfold reviewDoneBlock
  repeat' split
  all_goals simp

/-- The review-done gate only ever leaves the item in its old state or in
`APPROVED`, `MERGED` or `REVIEWING`. -/
theorem reviewDoneBlock_states (env : DaemonEnv) (tr : List Nat) (it : QueueItem)
    (prn : Nat) :
    (reviewDoneBlock env tr it prn).item.state = it.state
    ∨ (reviewDoneBlock env tr it prn).item.state = .APPROVED
    ∨ (reviewDoneBlock env tr it prn).item.state = .MERGED
    ∨ (reviewDoneBlock env tr it prn).item.state = .REVIEWING := by
  unfold reviewDoneBlock
  repeat' split
  all_goals simp

/-- In the state dispatch, an assignment action is only produced in the
QUEUED branch, under all of its guards, and it moves the item to
`ASSIGNED`. -/
theorem mainBranches_assign_guard (env : DaemonEnv) (queue : List QueueItem)
    (tr : List Nat) (item : QueueItem) (ca : Bool) (n : Nat) (s : String)
    (h : (mainBranches env queue tr item ca).action
        = some (.assignedToCopilot n s)) :
    item.state = .QUEUED ∧ ca = true ∧ firstQueued queue = some item
    ∧ activeItems queue = [] ∧ item.issueNumber = some n ∧ s = item.issueId
    ∧ (mainBranches env queue tr item ca).item
        = { item with state := .ASSIGNED } := by
  cases hstate : item.state <;>
    (try simp [mainBranches, hstate] at h ⊢) <;>
    (repeat' split at h) <;> simp_all

/-- In the state dispatch, a QUEUED item reaches `ASSIGNED` only through
the assignment action. -/
theorem mainBranches_queued_assigned (env : DaemonEnv) (queue : List QueueItem)
    (tr : List Nat) (item : QueueItem) (ca : Bool)
    (hq : item.state = .QUEUED)
    (h : (mainBranches env queue tr item ca).item.state = .ASSIGNED) :
    isAssignAction (mainBranches env queue tr item ca).action = true := by
  simp [mainBranches, hq] at h ⊢
  repeat' split at h
  all_goals simp_all [isAssignAction]

/-- Without a tracked PR, item processing is exactly the state dispatch. -/
theorem processItem_eq_mainBranches (env : DaemonEnv) (queue : List QueueItem)
    (tr : List Nat) (item : QueueItem) (ca : Bool)
    (hnd : ∀ prn, item.prNumber = some prn → tr.contains prn = false) :
    processItemWithCooldown env queue tr item ca
      = mainBranches env queue tr item ca := by
  unfold processItemWithCooldown
  split
  next prn hpn =>
    rw [hnd prn hpn]
    simp
  next => rfl

/-- An assignment action is only produced in the QUEUED branch, under all
of its guards, and it moves the item to `ASSIGNED`. -/
theorem assign_action_guard (env : DaemonEnv) (queue : List QueueItem) (tr : List Nat)
    (item : QueueItem) (ca : Bool) (n : Nat) (s : String)
    (h : (processItemWithCooldown env queue tr item ca).action
        = some (.assignedToCopilot n s)) :
    item.state = .QUEUED ∧ ca = true ∧ firstQueued queue = some item
    ∧ activeItems queue = [] ∧ item.issueNumber = some n ∧ s = item.issueId
    ∧ (processItemWithCooldown env queue tr item ca).item
        = { item with state := .ASSIGNED } := by
  by_cases htrk : ∃ prn, item.prNumber = some prn ∧ tr.contains prn = true
  · obtain ⟨prn, hpn, htr⟩ := htrk
    have heq : processItemWithCooldown env queue tr item ca
        = reviewDoneBlock env tr item prn := by
      unfold processItemWithCooldown
      rw [hpn]
      have hmem : prn ∈ tr := by simpa using htr
      simp [hmem]
    rw [heq] at h
    rcases reviewDoneBlock_actions env tr item prn with h0 | h0 | h0 | h0 <;>
      rw [h0] at h <;> simp at h
  · have heq := processItem_eq_mainBranches env queue tr item ca (by
      intro prn hpn
      by_contra hc
      exact htrk ⟨prn, hpn, by simpa using hc⟩)
    rw [heq] at h ⊢
    exact mainBranches_assign_guard env queue tr item ca n s h

/-- A QUEUED item reaches `ASSIGNED` only through the assignment action. -/
theorem queued_to_assigned_action (env : DaemonEnv) (queue : List QueueItem)
    (tr : List Nat) (item : QueueItem) (ca : Bool)
    (hq : item.state = .QUEUED)
    (h : (processItemWithCooldown env queue tr item ca).item.state = .ASSIGNED) :
    isAssignAction (processItemWithCooldown env queue tr item ca).action = true := by
  by_cases htrk : ∃ prn, item.prNumber = some prn ∧ tr.contains prn = true
  · obtain ⟨prn, hpn, htr⟩ := htrk
    have heq : processItemWithCooldown env queue tr item ca
        = reviewDoneBlock env tr item prn := by
      unfold processItemWithCooldown
      rw [hpn]
      have hmem : prn ∈ tr := by simpa using htr
      simp [hmem]
    rw [heq] at h
    rcases reviewDoneBlock_states env tr item prn with h0 | h0 | h0 | h0 <;>
      rw [h0] at h <;> simp_all
  · have heq := processItem_eq_mainBranches env queue tr item ca (by
      intro prn hpn
      by_contra hc
      exact htrk ⟨prn, hpn, by simpa using hc⟩)
    rw [heq] at h ⊢
    exact mainBranches_queued_assigned env queue tr item ca hq h

/-- The threaded flag never turns back on. -/
theorem nextCanAssign_true (ca : Bool) (act : Option DaemonAction)
    (h : nextCanAssign ca act = true) : ca = true := by
  cases act with
  | none => simpa [nextCanAssign] using h
  | some a =>
    cases a <;>
      simp_all [nextCanAssign, actionMentionsAssigned, actionMentionsCooldownStarted]

/-- The flag is cleared by an assignment action. -/
theorem nextCanAssign_assign (ca : Bool) (n : Nat) (s : String) :
    nextCanAssign ca (some (.assignedToCopilot n s)) = false := by
  simp [nextCanAssign, actionMentionsAssigned, actionMentionsCooldownStarted]

/-- An action is the assignment action exactly when it has its shape. -/
theorem isAssignAction_iff (act : Option DaemonAction) :
    isAssignAction act = true ↔ ∃ n s, act = some (.assignedToCopilot n s) := by
  cases act with
  | none => simp [isAssignAction]
  | some a => cases a <;> simp [isAssignAction]

/-- Position-wise QUEUED-to-ASSIGNED count splits over cons. -/
theorem queuedToAssigned_cons (x y : QueueItem) (xs ys : List QueueItem) :
    queuedToAssigned (x :: xs) (y :: ys)
      = (if x.state == .QUEUED && y.state == .ASSIGNED then 1 else 0)
        + queuedToAssigned xs ys := by
  simp only [queuedToAssigned, List.zip_cons_cons, List.filter_cons]
  split <;> simp [Nat.add_comm]

/-- One cycle step by step: the processed queue extends `done`, has the
length of `todo`, and performs at most one QUEUED-to-ASSIGNED transition,
only when the flag came in true. -/
theorem runCycleGo_spec (env : DaemonEnv) (todo : List QueueItem) :
    ∀ (done : List QueueItem) (tr : List Nat) (ca : Bool),
      ∃ proc, (runCycleGo env done todo tr ca).queue = done ++ proc
        ∧ proc.length = todo.length
        ∧ queuedToAssigned todo proc ≤ 1
        ∧ (1 ≤ queuedToAssigned todo proc → ca = true) := by
  induction todo with
  | nil =>
    intro done tr ca
    exact ⟨[], by simp [runCycleGo], by simp, by simp [queuedToAssigned],
      by simp [queuedToAssigned]⟩
  | cons item rest ih =>
    intro done tr ca
    rw [runCycleGo]
    have hres := ih (done ++ [(processItemWithCooldown env (done ++ item :: rest) tr item ca).item])
      (processItemWithCooldown env (done ++ item :: rest) tr item ca).tracker
      (nextCanAssign ca (processItemWithCooldown env (done ++ item :: rest) tr item ca).action)
    obtain ⟨proc, hq, hlen, hcount, himp⟩ := hres
    refine ⟨(processItemWithCooldown env (done ++ item :: rest) tr item ca).item :: proc,
      ?_, ?_, ?_, ?_⟩
    · simpa using hq
    · simpa using hlen
    · rw [queuedToAssigned_cons]
      by_cases hA : isAssignAction (processItemWithCooldown env (done ++ item :: rest) tr item ca).action = true
      · obtain ⟨n, s, hact⟩ := (isAssignAction_iff _).mp hA
        have hz : queuedToAssigned rest proc = 0 := by
          by_contra hnz
          have h1 : 1 ≤ queuedToAssigned rest proc := Nat.one_le_iff_ne_zero.mpr hnz
          have := himp h1
          rw [hact, nextCanAssign_assign] at this
          exact Bool.false_ne_true this
        rw [hz]
        split <;> simp
      · have hhead : (item.state == WorkflowState.QUEUED
            && (processItemWithCooldown env (done ++ item :: rest) tr item ca).item.state
              == WorkflowState.ASSIGNED) = false := by
          by_contra hc
          have hc2 := Bool.of_not_eq_false hc
          simp only [Bool.and_eq_true, beq_iff_eq] at hc2
          exact hA (queued_to_assigned_action env _ tr item ca hc2.1 hc2.2)
        rw [hhead]
        simpa using hcount
    · intro hone
      rw [queuedToAssigned_cons] at hone
      by_cases hA : isAssignAction (processItemWithCooldown env (done ++ item :: rest) tr item ca).action = true
      · obtain ⟨n, s, hact⟩ := (isAssignAction_iff _).mp hA
        exact (assign_action_guard env _ tr item ca n s hact).2.1
      · have hhead : (item.state == WorkflowState.QUEUED
            && (processItemWithCooldown env (done ++ item :: rest) tr item ca).item.state
              == WorkflowState.ASSIGNED) = false := by
          by_contra hc
          have hc2 := Bool.of_not_eq_false hc
          simp only [Bool.and_eq_true, beq_iff_eq] at hc2
          exact hA (queued_to_assigned_action env _ tr item ca hc2.1 hc2.2)
        rw [hhead] at hone
        simp at hone
        exact nextCanAssign_true ca _ (himp hone)

/-- C3: within one daemon cycle, at most one item undergoes the
QUEUED-to-ASSIGNED transition regardless of queue length; an assignment is
produced only when the admission flag passed, only for the first item whose
state is QUEUED in the live queue, and only when no item is in flight. -/
theorem claim3_admission_singularity (env : DaemonEnv) (queue : List QueueItem)
    (tracker : List Nat) (ca : Bool) :
    (queuedToAssigned queue (runCycle env queue tracker ca).queue ≤ 1
      ∧ (1 ≤ queuedToAssigned queue (runCycle env queue tracker ca).queue → ca = true))
    ∧ ∀ (q : List QueueItem) (tr : List Nat) (it : QueueItem) (c : Bool)
        (n : Nat) (s : String),
        (processItemWithCooldown env q tr it c).action
            = some (.assignedToCopilot n s) →
        it.state = .QUEUED ∧ c = true ∧ firstQueued q = some it
          ∧ activeItems q = [] := by
  constructor
  · obtain ⟨proc, hq, hlen, hcount, himp⟩ := runCycleGo_spec env queue [] tracker ca
    rw [runCycle, hq]
    simpa using ⟨hcount, himp⟩
  · intro q tr it c n s h
    have hg := assign_action_guard env q tr it c n s h
    exact ⟨hg.1, hg.2.1, hg.2.2.1, hg.2.2.2.1⟩

/-- Witness for C3 on a concrete two-item queue: the assignment action for
the first item is produced, and the theorem's guards hold of it; the cycle
count stays at most one. -/
theorem claim3_witness :
    (queuedToAssigned c3queue (runCycle c3env c3queue [] true).queue ≤ 1)
    ∧ c3itemA.state = .QUEUED ∧ firstQueued c3queue = some c3itemA
    ∧ activeItems c3queue = [] := by
  have h := claim3_admission_singularity c3env c3queue [] true
  have h2 := h.2 c3queue [] c3itemA true 5 "TC-A-01" (by decide)
  exact ⟨h.1.1, h2.1, h2.2.2.1, h2.2.2.2⟩

/-! ## The loop-breaker rule (C2) -/

/-- The final approval-seeking request of the review-done gate targets the
tracked PR, moves the item to `REVIEWING`, and fires only when the item was
not already `REVIEWING`. -/
theorem reviewDoneBlock_final_review (env : DaemonEnv) (tr : List Nat)
    (it : QueueItem) (prn p : Nat)
    (h : (reviewDoneBlock env tr it prn).action = some (.requestedFinalReview p)) :
    p = prn ∧ (reviewDoneBlock env tr it prn).item.state = .REVIEWING
      ∧ it.state ≠ .REVIEWING := by
  unfold reviewDoneBlock at h ⊢
  repeat' split at h
  all_goals simp_all

/-- Counterexample for C2: while PR 7 has a loop-breaker entry, the daemon
still issues a `request_review_from_copilot` call — the final
approval-seeking request of the review-done gate (daemon.py lines
527-541). -/
theorem claim2_counterexample :
    ([7].contains 7 = true)
    ∧ (processItemWithCooldown c2env [c2item] [7] c2item true).action
        = some (.requestedFinalReview 7)
    ∧ isRequestReviewCall
        (processItemWithCooldown c2env [c2item] [7] c2item true).action = true :=
  ⟨by decide, by decide, by decide⟩

/-- C2 as amended: while a loop-breaker entry exists for an item's PR, the
regular review-request actions (the PR_OPEN request and the
REVIEW_REQUESTED reassignment) are never issued for it; the only review
request still possible is the final approval-seeking one, which moves the
item to `REVIEWING` and is not issued when the item is already
`REVIEWING`. -/
theorem claim2_amended_loop_breaker (env : DaemonEnv) (q : List QueueItem)
    (tr : List Nat) (it : QueueItem) (ca : Bool) (prn : Nat)
    (hpr : it.prNumber = some prn) (hdone : tr.contains prn = true) :
    (∀ p, (processItemWithCooldown env q tr it ca).action
        ≠ some (.requestedReview p))
    ∧ (∀ p, (processItemWithCooldown env q tr it ca).action
        ≠ some (.reassignedReview p))
    ∧ (∀ p, (processItemWithCooldown env q tr it ca).action
          = some (.requestedFinalReview p) →
        p = prn ∧ (processItemWithCooldown env q tr it ca).item.state = .REVIEWING)
    ∧ (it.state = .REVIEWING →
        ∀ p, (processItemWithCooldown env q tr it ca).action
          ≠ some (.requestedFinalReview p)) := by
  have heq : processItemWithCooldown env q tr it ca = reviewDoneBlock env tr it prn := by
    unfold processItemWithCooldown
    rw [hpr]
    have hmem : prn ∈ tr := by simpa using hdone
    simp [hmem]
  rw [heq]
  refine ⟨?_, ?_, ?_, ?_⟩
  · intro p
    rcases reviewDoneBlock_actions env tr it prn with h0 | h0 | h0 | h0 <;> simp [h0]
  · intro p
    rcases reviewDoneBlock_actions env tr it prn with h0 | h0 | h0 | h0 <;> simp [h0]
  · intro p hp
    exact ⟨(reviewDoneBlock_final_review env tr it prn p hp).1,
      (reviewDoneBlock_final_review env tr it prn p hp).2.1⟩
  · intro hrev p hp
    exact absurd hrev (reviewDoneBlock_final_review env tr it prn p hp).2.2

/-- Witness for C2 as amended, at the concrete tracked scenario: the action
issued is not one of the regular review requests, and the final request
moves the item to `REVIEWING`. -/
theorem claim2_witness :
    ((processItemWithCooldown c2env [c2item] [7] c2item true).action
        ≠ some (.requestedReview 7))
    ∧ ((processItemWithCooldown c2env [c2item] [7] c2item true).action
        ≠ some (.reassignedReview 7))
    ∧ (processItemWithCooldown c2env [c2item] [7] c2item true).item.state
        = .REVIEWING := by
  have h := claim2_amended_loop_breaker c2env [c2item] [7] c2item true 7 rfl (by decide)
  exact ⟨h.1 7, h.2.1 7, (h.2.2.1 7 (by decide)).2⟩

end Orchestrator
